import Mathlib

/-!
Verification development for the Sales-Dashboard data pipeline.

The repository consists of:
  * a synchronizer script that fetches spreadsheet rows, cleans them
    (currency stripping, date coercion), drops rows with a null or empty
    email, and truncate-and-reloads a PostgreSQL table;
  * a dashboard application that loads the stored rows, derives canonical
    fields (status vocabulary mapping, country grouping, follow-up
    counters, initial-call flag) and filters/aggregates them.

Everything below is a shallow embedding of those two scripts.  Cell values
are modelled by the inductive type Value; pandas NaN/NaT and SQL NULL are
modelled by Value.na and Option.none respectively.  String operations
(strip, lower, title, regex character removal) are implemented over the
character list of the string, matching the ASCII behaviour of the Python
originals on the data this pipeline handles.
-/

/-- Characters treated as whitespace by the Python strip used here. -/
def isSpaceChar (c : Char) : Bool := c = ' ' || c = '\t' || c = '\n' || c = '\r'

/-- Embedding of the Python str.strip operation on a character list. -/
def trimChars (cs : List Char) : List Char :=
  ((cs.dropWhile isSpaceChar).reverse.dropWhile isSpaceChar).reverse

/-- Embedding of str.strip on strings. -/
def pyStrip (s : String) : String := ⟨trimChars s.toList⟩

/-- Embedding of str.lower composed with str.strip, used before vocabulary lookups. -/
def normKey (s : String) : String := ⟨(trimChars s.toList).map Char.toLower⟩

/-- Splits a character list on a separator character, keeping empty segments,
like the Python str.split with an explicit separator. -/
def splitOnChar (sep : Char) : List Char → List (List Char)
  | [] => [[]]
  | c :: cs =>
    match splitOnChar sep cs with
    | [] => [[]]
    | h :: t => if c = sep then [] :: h :: t else (c :: h) :: t

/-- Numeric value of a digit list, most significant first. -/
def digitsToNat (cs : List Char) : Nat :=
  cs.foldl (fun a c => a * 10 + (c.toNat - 48)) 0

/-- Parses a non-empty all-digit character list. -/
def parseDigits (cs : List Char) : Option Nat :=
  if cs.isEmpty then none
  else if cs.all Char.isDigit then some (digitsToNat cs) else none

/-- Embedding of the regex replacement that removes dollar signs and commas
from the sales amount column. -/
def stripDollarComma (cs : List Char) : List Char :=
  cs.filter (fun c => !(c = '$' || c = ','))

/-- Embedding of pandas to_numeric with coercion on strings: an optional
minus sign, digits, and an optional fractional part; anything else is NaN
(returned as none).  Amounts are modelled as rationals. -/
def parseNumeric (s : String) : Option Rat :=
  let cs := trimChars s.toList
  let neg : Bool := cs.headD ' ' = '-'
  let body := if neg then cs.tail else cs
  match splitOnChar '.' body with
  | [w] => (parseDigits w).map (fun n => if neg then -(n : Rat) else (n : Rat))
  | [w, f] =>
    match parseDigits w, parseDigits f with
    | some n, some m =>
      let mag : Rat := (n : Rat) + (m : Rat) / ((10 : Rat) ^ f.length)
      some (if neg then -mag else mag)
    | _, _ => none
  | _ => none

/-- Calendar date.  Ordering is the usual calendar order. -/
structure Date where
  y : Nat
  m : Nat
  d : Nat
deriving DecidableEq, Repr

/-- Serial number giving the calendar order of dates. -/
def Date.serial (a : Date) : Nat := a.y * 10000 + a.m * 100 + a.d

/-- Calendar order on dates as a boolean. -/
def dateLe (a b : Date) : Bool := a.serial ≤ b.serial

/-- Leap year test. -/
def isLeap (y : Nat) : Bool := (y % 4 = 0 && !(y % 100 = 0)) || y % 400 = 0

/-- Number of days in a month. -/
def daysInMonth (y m : Nat) : Nat :=
  if m = 2 then (if isLeap y then 29 else 28)
  else if m = 4 || m = 6 || m = 9 || m = 11 then 30
  else 31

/-- Embedding of pandas to_datetime with coercion, restricted to the
ISO year-month-day format delivered by the spreadsheet; invalid dates
coerce to none, never raise. -/
def parseDate (s : String) : Option Date :=
  match splitOnChar '-' (trimChars s.toList) with
  | [ys, ms, ds] =>
    match parseDigits ys, parseDigits ms, parseDigits ds with
    | some y, some m, some d =>
      if 1 ≤ m && m ≤ 12 && 1 ≤ d && d ≤ daysInMonth y m then some ⟨y, m, d⟩ else none
    | _, _, _ => none
  | _ => none

/-- A spreadsheet or database cell value.  Value.na models pandas NaN/NaT. -/
inductive Value where
  | na
  | s (v : String)
  | num (q : Rat)
  | date (d : Date)
deriving DecidableEq, Repr

/-- Embedding of to_datetime with coercion on a cell value. -/
def pdToDate : Value → Option Date
  | .na => none
  | .s v => parseDate v
  | .num _ => none
  | .date d => some d

/-- Packs an optional date back into a cell (none becomes NaT). -/
def optDateValue : Option Date → Value
  | some d => .date d
  | none => .na

/-- Embedding of the sales-amount cleaning in fetch_data_from_gsheets:
astype(str), strip dollar signs and commas, to_numeric with coercion,
fillna(0).  A numeric cell prints and reparses to itself. -/
def cleanSales : Value → Rat
  | .na => 0
  | .num q => q
  | .date _ => 0
  | .s v => (parseNumeric ⟨stripDollarComma v.toList⟩).getD 0

/-- One source row, keyed by the canonical (already lower-cased, renamed)
column names of the synchronizer.  A blank spreadsheet cell arrives as the
empty string; get_all_records yields every header for every row. -/
structure SourceRow where
  name : Value := .s ""
  email : Value := .s ""
  number : Value := .s ""
  country_name : Value := .s ""
  remarks : Value := .s ""
  agent : Value := .s ""
  first_call_date : Value := .s ""
  status : Value := .s ""
  notes_from_call : Value := .s ""
  post_call_email : Value := .s ""
  tags : Value := .s ""
  interested_category : Value := .s ""
  sales_status : Value := .s ""
  sales_amount : Value := .s ""
  next_follow_up_time : Value := .s ""
  next_follow_up_date : Value := .s ""
  calling_stamp : Value := .s ""
  signup_date : Value := .s ""
deriving DecidableEq, Repr

/-- Column-wise cleaning performed by fetch_data_from_gsheets before the
email filter: sales amount is cleaned to a number, the two date columns
are coerced to dates (invalid values become NaT). -/
def fetchRowClean (r : SourceRow) : SourceRow :=
  { r with
    sales_amount := .num (cleanSales r.sales_amount),
    first_call_date := optDateValue (pdToDate r.first_call_date),
    next_follow_up_date := optDateValue (pdToDate r.next_follow_up_date) }

/-- The admission filter of the synchronizer: a row is kept iff its email
is neither null nor the empty string. -/
def acceptEmail (r : SourceRow) : Bool :=
  !(r.email = Value.na) && !(r.email = Value.s "")

/-- Embedding of fetch_data_from_gsheets on an already-normalized sheet:
clean the columns, then drop rows failing the email gate.  The column
reordering step is the identity here because SourceRow is already in
canonical order. -/
def fetch_data_from_gsheets (rows : List SourceRow) : List SourceRow :=
  (rows.map fetchRowClean).filter acceptEmail

/-- Number of rows the synchronizer rejects (and logs) for a null or empty
email. -/
def rejectedCount (rows : List SourceRow) : Nat :=
  rows.countP (fun r => !(acceptEmail (fetchRowClean r)))

/-- The fixed column order of the target table. -/
def rowCells (r : SourceRow) : List Value :=
  [r.name, r.email, r.number, r.country_name, r.remarks, r.agent,
   r.first_call_date, r.status, r.notes_from_call, r.post_call_email,
   r.tags, r.interested_category, r.sales_status, r.sales_amount,
   r.next_follow_up_time, r.next_follow_up_date, r.calling_stamp, r.signup_date]

/-- Per-cell normalization applied while building the insert batch:
NaN/NaT becomes NULL, a whitespace-only string becomes NULL, every other
value is passed through unchanged. -/
def processCell : Value → Option Value
  | .na => none
  | .s v => if (trimChars v.toList).isEmpty then none else some (.s v)
  | .num q => some (.num q)
  | .date d => some (.date d)

/-- One stored table row: the eighteen cells, with NULLs. -/
abbrev DbRow := List (Option Value)

/-- The insert batch entry built from a cleaned row. -/
def toDbRow (r : SourceRow) : DbRow := (rowCells r).map processCell

/-- Committed contents of the target table; none means the table does not
exist yet. -/
structure PGState where
  table : Option (List DbRow)
deriving DecidableEq, Repr

/-- A database connection: the last committed table contents and the
current uncommitted transaction view. -/
structure Conn where
  committed : Option (List DbRow)
  pending : Option (List DbRow)
deriving DecidableEq, Repr

/-- Commit makes the pending view durable. -/
def Conn.commit (c : Conn) : Conn := ⟨c.pending, c.pending⟩

/-- Rollback discards the pending view. -/
def Conn.rollback (c : Conn) : Conn := ⟨c.committed, c.committed⟩

/-- Where, if anywhere, the store mutation fails.  duringInsert k models a
batch error after k rows of the insert batch were executed (uncommitted). -/
inductive FailPoint where
  | noFail
  | duringTruncate
  | duringInsert (k : Nat)
deriving DecidableEq, Repr

/-- Result of one insert_data_to_postgres call: the committed store state
and whether the success message was printed. -/
structure SyncOutcome where
  state : PGState
  success : Bool
deriving DecidableEq, Repr

/-- Committed state after the CREATE TABLE IF NOT EXISTS step: the table
exists, prior contents (if any) untouched. -/
def ensureTable (s : PGState) : PGState := ⟨some (s.table.getD [])⟩

/-- Embedding of insert_data_to_postgres: ensure the table exists (commit),
truncate (commit), execute the insert batch, commit.  A psycopg2 error at a
fail point triggers the rollback in the except branch, so only the last
committed state survives. -/
def insert_data_to_postgres (df : List SourceRow) (fp : FailPoint) (s : PGState) : SyncOutcome :=
  let c0 : Conn := ⟨s.table, s.table⟩
  let c1 := Conn.commit { c0 with pending := some (c0.pending.getD []) }
  match fp with
  | .duringTruncate =>
      ⟨⟨(Conn.rollback c1).committed⟩, false⟩
  | .duringInsert k =>
      let c2 := Conn.commit { c1 with pending := some [] }
      let c3 := { c2 with pending := some ((df.map toDbRow).take k) }
      ⟨⟨(Conn.rollback c3).committed⟩, false⟩
  | .noFail =>
      let c2 := Conn.commit { c1 with pending := some [] }
      let c3 := Conn.commit { c2 with pending := some (df.map toDbRow) }
      ⟨⟨c3.committed⟩, true⟩

/-- Reads the whole table back (empty if the table does not exist). -/
def selectAll (s : PGState) : List DbRow := s.table.getD []

/-- Outcome of the fetch step as seen by the main program: either a list of
source rows was read, or any fetch error occurred (sheet or worksheet not
found, or any other exception such as a missing email column), in which
case fetch_data_from_gsheets returns an empty frame. -/
inductive FetchOutcome where
  | ok (rows : List SourceRow)
  | fetchError
deriving Repr

/-- Rows produced by the fetch step. -/
def fetchResult : FetchOutcome → List SourceRow
  | .ok rows => fetch_data_from_gsheets rows
  | .fetchError => []

/-- Embedding of the main sync program: if the fetched frame is empty the
process exits before touching the store; otherwise it runs the insert. -/
def runMain (f : FetchOutcome) (fp : FailPoint) (s : PGState) : PGState :=
  let df := fetchResult f
  if df.isEmpty then s else (insert_data_to_postgres df fp s).state

/-!
Dashboard load side: the application reads the stored rows back and builds
the canonical record used for filtering and aggregation.
-/

/-- Embedding of astype(str) on a stored cell: SQL NULL prints as None,
NaN prints as nan; non-string payloads print as some non-vocabulary text
(placeholder markers, which behave identically under the vocabulary maps
because they are not dictionary keys). -/
def cellStr : Option Value → String
  | none => "None"
  | some .na => "nan"
  | some (.s v) => v
  | some (.num _) => "<numeric>"
  | some (.date _) => "<date>"

/-- String payload of a stored cell, if any. -/
def cellOptStr : Option Value → Option String
  | some (.s v) => some v
  | _ => none

/-- Embedding of to_datetime with coercion on a stored cell. -/
def dbCellToDate : Option Value → Option Date
  | none => none
  | some v => pdToDate v

/-- Embedding of to_numeric with coercion and fillna(0) on a stored cell. -/
def toNumericCell : Option Value → Rat
  | some (.num q) => q
  | some (.s v) => (parseNumeric v).getD 0
  | _ => 0

/-- Embedding of the Python str.title operation: the first letter of every
maximal alphabetic run is upper-cased, the rest lower-cased. -/
def pyTitleAux : Bool → List Char → List Char
  | _, [] => []
  | prev, c :: cs =>
      (if c.isAlpha then (if prev then c.toLower else c.toUpper) else c) ::
        pyTitleAux c.isAlpha cs

/-- Python str.title on strings. -/
def pyTitle (s : String) : String := ⟨pyTitleAux false s.toList⟩

/-- The fixed status dictionary of the dashboard loader. -/
def status_mapping : List (String × String) :=
  [("answered call", "Answered"),
   ("answered", "Answered"),
   ("not answered", "Not answered"),
   ("invalid number", "Invalid number"),
   ("silent call/voicemail", "Voicemail"),
   ("voicemail", "Voicemail")]

/-- The fixed sales-status dictionary of the dashboard loader. -/
def sales_status_mapping : List (String × String) :=
  [("sold", "Converted"),
   ("deal won", "Converted"),
   ("deal complete", "Converted"),
   ("converted", "Converted"),
   ("lost", "Not interested"),
   ("no interest", "Not interested"),
   ("not interested (n)", "Not interested"),
   ("not interested", "Not interested"),
   ("follow up", "Follow up"),
   ("f", "Follow up")]

/-- Dictionary lookup used by Series.map: an absent key yields NaN (none). -/
def lookupVocab (m : List (String × String)) (k : String) : Option String :=
  (m.find? (fun p => p.1 == k)).map (fun p => p.2)

/-- Embedding of the status pipeline: astype(str).strip().lower(), map
through the dictionary, title-case the mapped value, then the column-wide
replace that restores "Invalid number" and "Not answered". -/
def statusDisplay (raw : String) : Option String :=
  (lookupVocab status_mapping (normKey raw)).map (fun v =>
    let t := pyTitle v
    if t = "Invalid Number" then "Invalid number"
    else if t = "Not Answered" then "Not answered"
    else t)

/-- Embedding of the sales-status pipeline: strip/lower, dictionary map,
then title-case; no replace step follows. -/
def salesStatusDisplay (raw : String) : Option String :=
  (lookupVocab sales_status_mapping (normKey raw)).map pyTitle

/-- Membership table of the country grouping. -/
def south_asia_countries : List String := ["India", "Pakistan", "Bangladesh"]

/-- Membership table of the country grouping. -/
def latin_america_countries : List String := ["Brazil", "Argentina", "Colombia"]

/-- Membership table of the country grouping. -/
def middle_east_countries : List String := ["Iraq", "Saudi Arabia", "United Arab Emirates"]

/-- The country grouping: a pure total function of the country name via the
fixed membership tables; everything unlisted maps to "Other". -/
def country_group (c : String) : String :=
  if c ∈ south_asia_countries then "South Asia"
  else if c ∈ latin_america_countries then "Latin America"
  else if c ∈ middle_east_countries then "Middle East"
  else "Other"

/-- Country grouping applied to a possibly NULL stored country name; a NULL
is not in any membership table, hence grouped as "Other". -/
def country_group_cell : Option String → String
  | some c => country_group c
  | none => "Other"

/-- Holds iff a follow-up date exists and is not after the reference date. -/
def followUpDue (ref : Date) : Option Date → Bool
  | some d => dateLe d ref
  | none => false

/-- The configured follow-up-date columns of the loader, as accessors into
a stored row; currently only next_follow_up_date (column index 15). -/
def loadFollowUpCols : List (DbRow → Option Date) :=
  [fun row => dbCellToDate (row.getD 15 none)]

/-- The per-record follow-up counter computed at load time: one count per
configured column whose date is present and not after today. -/
def loadFollowUpCount (today : Date) (row : DbRow) : Nat :=
  loadFollowUpCols.countP (fun col => followUpDue today (col row))

/-- The canonical record the dashboard works with (the fields the verified
claims touch). -/
structure CanonRecord where
  agent : Option String
  country_name : Option String
  status : Option String
  sales_status : Option String
  sales_amount : Rat
  date_called : Option Date
  is_initial_call : Nat
  next_follow_up_date : Option Date
  total_follow_up_calls : Nat
  country_group : String
deriving DecidableEq, Repr

/-- Embedding of the per-row part of load_full_sales_data_from_db: build
the canonical record from one stored row; today is the clock reading taken
at load time for the follow-up counter. -/
def loadRecord (today : Date) (row : DbRow) : CanonRecord :=
  { agent := cellOptStr (row.getD 5 none)
    country_name := cellOptStr (row.getD 3 none)
    status := statusDisplay (cellStr (row.getD 7 none))
    sales_status := salesStatusDisplay (cellStr (row.getD 12 none))
    sales_amount := toNumericCell (row.getD 13 none)
    date_called := dbCellToDate (row.getD 6 none)
    is_initial_call := if (dbCellToDate (row.getD 6 none)).isSome then 1 else 0
    next_follow_up_date := dbCellToDate (row.getD 15 none)
    total_follow_up_calls := loadFollowUpCount today row
    country_group := country_group_cell (cellOptStr (row.getD 3 none)) }

/-- The configured follow-up-date columns as record accessors, used by the
reporting-time recomputation. -/
def recordFollowUpCols : List (CanonRecord → Option Date) :=
  [fun r => r.next_follow_up_date]

/-- Follow-up count of one canonical record evaluated against an explicit
reference date. -/
def recFollowUpCount (ref : Date) (r : CanonRecord) : Nat :=
  recordFollowUpCols.countP (fun col => followUpDue ref (col r))

/-- Embedding of the overall dashboard follow-up metric: for each
configured column, count the filtered records whose date is present and
not after the filter end date. -/
def total_follow_up_calls_overall (endDate : Date) (rows : List CanonRecord) : Nat :=
  recordFollowUpCols.foldl
    (fun acc col => acc + rows.countP (fun r => followUpDue endDate (col r))) 0

/-- Embedding of the per-agent (and per-country) follow-up aggregate: the
sum of the stored per-record counters over the rows of the group. -/
def agentFollowUpSum (rows : List CanonRecord) : Nat :=
  (rows.map (fun r => r.total_follow_up_calls)).sum

/-- The sidebar filter selections; the string "All" disables a predicate. -/
structure FilterCriteria where
  agent : String
  country : String
  status : String
  start_date : Date
  end_date : Date
deriving DecidableEq, Repr

/-- Agent filter step of the dashboard. -/
def filterByAgent (a : String) (l : List CanonRecord) : List CanonRecord :=
  if a = "All" then l else l.filter (fun r => r.agent == some a)

/-- Country filter step of the dashboard. -/
def filterByCountry (c : String) (l : List CanonRecord) : List CanonRecord :=
  if c = "All" then l else l.filter (fun r => r.country_name == some c)

/-- Status filter step of the dashboard. -/
def filterByStatus (st : String) (l : List CanonRecord) : List CanonRecord :=
  if st = "All" then l else l.filter (fun r => r.status == some st)

/-- Inclusive date-range membership of date_called; a missing date fails
the range test (NaT comparisons are false in pandas). -/
def dateInRange (sd ed : Date) : Option Date → Bool
  | some d => dateLe sd d && dateLe d ed
  | none => false

/-- Date-range filter step of the dashboard. -/
def filterByDateRange (sd ed : Date) (l : List CanonRecord) : List CanonRecord :=
  l.filter (fun r => dateInRange sd ed r.date_called)

/-- Embedding of the filtered_df computation: agent, country, status, then
date range, applied in that order. -/
def applyFilters (c : FilterCriteria) (l : List CanonRecord) : List CanonRecord :=
  filterByDateRange c.start_date c.end_date
    (filterByStatus c.status (filterByCountry c.country (filterByAgent c.agent l)))

/-- The single conjunctive predicate the specification describes: agent
equality (unless "All"), country equality (unless "All"), status equality
(unless "All"), and inclusive date-range membership, all ANDed.  This
definition follows the wording of the specification and is compared with
applyFilters, which follows the code. -/
def filterConjSpec (c : FilterCriteria) (r : CanonRecord) : Bool :=
  (c.agent == "All" || r.agent == some c.agent) &&
  ((c.country == "All" || r.country_name == some c.country) &&
   ((c.status == "All" || r.status == some c.status) &&
    dateInRange c.start_date c.end_date r.date_called))

/-!
Concrete data used by the end-to-end scenario and the counterexamples.
-/

/-- First source row of the end-to-end scenario of the specification. -/
def c1_row1 : SourceRow :=
  { agent := .s "A", status := .s "answered call", sales_amount := .s "$1,000",
    first_call_date := .s "2024-01-01", email := .s "a@x.com" }

/-- Second source row of the end-to-end scenario: status Lost and empty
sales amount, first-call date and email. -/
def c1_row2 : SourceRow :=
  { status := .s "Lost", sales_amount := .s "", first_call_date := .s "", email := .s "" }

/-- Stored table contents after synchronizing the two scenario rows into a
fresh store. -/
def c1_stored : List DbRow :=
  selectAll (insert_data_to_postgres (fetch_data_from_gsheets [c1_row1, c1_row2])
    FailPoint.noFail ⟨none⟩).state

/-- The field-for-field reading of the round-trip property in the
specification: a stored NULL corresponds to a NaN field of the built
canonical record, and every other canonical value reads back unchanged.
This definition follows the wording of the specification and is compared
with toDbRow, which follows the code. -/
def canonCellAsStored (v : Value) : Option Value :=
  if v = Value.na then none else some v

/-- A source row that passes the email gate while all its other cells are
blank spreadsheet cells (empty strings). -/
def c5_row : SourceRow := { email := .s "a@x.com" }

/-- A stored row whose next follow-up date is 2024-01-10, produced by the
synchronizer from a source row. -/
def c3_dbrow : DbRow :=
  toDbRow (fetchRowClean { email := .s "e@x.com", next_follow_up_date := .s "2024-01-10" })

/-- A source row whose email is blank, hence rejected by the admission
filter. -/
def c10_rejected_row : SourceRow := { status := Value.s "Lost" }

/-- A store state holding one previously synchronized row. -/
def c10_prior_state : PGState := ⟨some [List.replicate 18 none]⟩

/-- The full membership table of the country grouping. -/
def country_membership_table : List String :=
  south_asia_countries ++ latin_america_countries ++ middle_east_countries

/-!
Helper lemmas shared by the claim theorems.
-/

theorem countP_not_add {α : Type} (p : α → Bool) (l : List α) :
    l.countP p + l.countP (fun a => !(p a)) = l.length := by
  induction l with
  | nil => rfl
  | cons x xs ih => cases h : p x <;> simp [List.countP_cons, h] <;> omega

theorem countP_eq_sum_ite {α : Type} (p : α → Bool) (l : List α) :
    l.countP p = (l.map (fun x => if p x then 1 else 0)).sum := by
  induction l with
  | nil => rfl
  | cons x xs ih =>
      rw [List.countP_cons, List.map_cons, List.sum_cons, ih]
      exact Nat.add_comm _ _

theorem filterByAgent_eq (a : String) (l : List CanonRecord) :
    filterByAgent a l = l.filter (fun r => a == "All" || r.agent == some a) := by
  by_cases h : a = "All"
  · subst h; simp [filterByAgent]
  · simp [filterByAgent, h, beq_eq_false_iff_ne.mpr h]

theorem filterByCountry_eq (c : String) (l : List CanonRecord) :
    filterByCountry c l = l.filter (fun r => c == "All" || r.country_name == some c) := by
  by_cases h : c = "All"
  · subst h; simp [filterByCountry]
  · simp [filterByCountry, h, beq_eq_false_iff_ne.mpr h]

theorem filterByStatus_eq (st : String) (l : List CanonRecord) :
    filterByStatus st l = l.filter (fun r => st == "All" || r.status == some st) := by
  by_cases h : st = "All"
  · subst h; simp [filterByStatus]
  · simp [filterByStatus, h, beq_eq_false_iff_ne.mpr h]

/-!
Claim theorems.
-/

/-- C2: during synchronization the store mutation commits as one logical
unit: whenever the truncate or the bulk insert fails, the except branch
rolls the open transaction back, so the committed table is either in its
pre-truncate state (contents as after the idempotent table creation) or in
its truncated-but-not-yet-reloaded state, and the success message is never
printed, so a partial insert is never committed as success. -/
theorem C2_store_mutation_atomicity :
    ∀ (df : List SourceRow) (s : PGState) (fp : FailPoint), fp ≠ FailPoint.noFail →
      (insert_data_to_postgres df fp s).success = false ∧
      ((insert_data_to_postgres df fp s).state.table = (ensureTable s).table ∨
        (insert_data_to_postgres df fp s).state.table = some []) := by
  intro df s fp h
  cases fp with
  | noFail => exact absurd rfl h
  | duringTruncate => exact ⟨rfl, Or.inl rfl⟩
  | duringInsert k => exact ⟨rfl, Or.inr rfl⟩

/-- Witness for C2: a batch failure after one row of a one-row insert into
a store holding one prior row reports no success and leaves the committed
table in one of the two allowed states. -/
theorem C2_store_mutation_atomicity_witness :
    (insert_data_to_postgres [({} : SourceRow)] (FailPoint.duringInsert 1)
        ⟨some [List.replicate 18 none]⟩).success = false ∧
    ((insert_data_to_postgres [({} : SourceRow)] (FailPoint.duringInsert 1)
        ⟨some [List.replicate 18 none]⟩).state.table
      = (ensureTable ⟨some [List.replicate 18 none]⟩).table ∨
     (insert_data_to_postgres [({} : SourceRow)] (FailPoint.duringInsert 1)
        ⟨some [List.replicate 18 none]⟩).state.table = some []) :=
  C2_store_mutation_atomicity [({} : SourceRow)] ⟨some [List.replicate 18 none]⟩
    (FailPoint.duringInsert 1) (by decide)

/-- C6: re-running synchronization with identical source input is
idempotent.  A successful insert pass truncates and reloads, so its
resulting state depends only on the fetched rows, never on the prior
state; consequently the stored row set after a second identical run equals
the set after the first, both at the insert level and for the whole main
program (whose empty-fetch guard also leaves a fixed point). -/
theorem C6_resync_idempotent :
    (∀ (rows : List SourceRow) (s : PGState),
        (insert_data_to_postgres (fetch_data_from_gsheets rows) FailPoint.noFail
          ((insert_data_to_postgres (fetch_data_from_gsheets rows) FailPoint.noFail s).state)).state
        = (insert_data_to_postgres (fetch_data_from_gsheets rows) FailPoint.noFail s).state) ∧
    (∀ (f : FetchOutcome) (s : PGState),
        runMain f FailPoint.noFail (runMain f FailPoint.noFail s)
        = runMain f FailPoint.noFail s) := by
  constructor
  · intro rows s; rfl
  · intro f s
    simp only [runMain]
    by_cases h : (fetchResult f).isEmpty
    · simp [h]
    · simp only [h, if_false, Bool.false_eq_true]
      rfl

/-- C8: the initial-call flag of a loaded record is 1 exactly when its
stored first-call date coerces to a valid date, 0 otherwise; a string cell
feeds through the date parser, and every outcome is total (a failed parse
yields none, it never raises). -/
theorem C8_is_initial_call_iff_parse :
    ∀ (today : Date) (row : DbRow),
      ((loadRecord today row).is_initial_call = 1 ↔
        (dbCellToDate (row.getD 6 none)).isSome) ∧
      ((loadRecord today row).is_initial_call = 0 ↔
        dbCellToDate (row.getD 6 none) = none) ∧
      (∀ v : String, dbCellToDate (some (Value.s v)) = parseDate v) := by
  intro today row
  have hproj : (loadRecord today row).is_initial_call
      = if (dbCellToDate (row.getD 6 none)).isSome then 1 else 0 := rfl
  refine ⟨?_, ?_, fun v => rfl⟩ <;> rw [hproj] <;>
    cases h : dbCellToDate (row.getD 6 none) <;> simp

/-- C9: the country grouping is a pure total function of the country name
through the fixed membership tables; India is grouped as South Asia,
Brazil as Latin America, Iraq as Middle East, Cyprus as Other, and every
country name outside the membership tables is grouped as Other. -/
theorem C9_country_group_pure_total :
    country_group "India" = "South Asia" ∧
    country_group "Brazil" = "Latin America" ∧
    country_group "Iraq" = "Middle East" ∧
    country_group "Cyprus" = "Other" ∧
    (∀ c : String, c ∉ country_membership_table → country_group c = "Other") := by
  refine ⟨by decide, by decide, by decide, by decide, fun c hc => ?_⟩
  simp only [country_membership_table, List.mem_append, not_or] at hc
  obtain ⟨⟨h1, h2⟩, h3⟩ := hc
  simp [country_group, h1, h2, h3]

/-- Witness for C9: Cyprus is outside the membership tables and is grouped
as Other. -/
theorem C9_country_group_pure_total_witness :
    "Cyprus" ∉ country_membership_table ∧ country_group "Cyprus" = "Other" :=
  ⟨by decide, C9_country_group_pure_total.2.2.2.2 "Cyprus" (by decide)⟩

/-- C7: the dashboard filter equals one conjunctive predicate (agent,
country and status equality unless the selection is All, ANDed with
inclusive date-range membership of date_called), and independent filter
steps commute: agent-then-country equals country-then-agent. -/
theorem C7_filter_conjunction_commutes :
    (∀ (c : FilterCriteria) (l : List CanonRecord),
        applyFilters c l = l.filter (filterConjSpec c)) ∧
    (∀ (a co : String) (l : List CanonRecord),
        filterByCountry co (filterByAgent a l) = filterByAgent a (filterByCountry co l)) := by
  constructor
  · intro c l
    unfold applyFilters filterByDateRange
    rw [filterByAgent_eq, filterByCountry_eq, filterByStatus_eq]
    simp only [List.filter_filter]
    apply List.filter_congr
    intro r _
    simp only [filterConjSpec]
    cases c.agent == "All" <;> cases c.country == "All" <;> cases c.status == "All" <;>
      cases r.agent == some c.agent <;> cases r.country_name == some c.country <;>
        cases r.status == some c.status <;>
          cases dateInRange c.start_date c.end_date r.date_called <;> rfl
  · intro a co l
    rw [filterByAgent_eq, filterByCountry_eq, filterByAgent_eq, filterByCountry_eq]
    simp only [List.filter_filter]
    apply List.filter_congr
    intro r _
    cases a == "All" <;> cases co == "All" <;> cases r.agent == some a <;>
      cases r.country_name == some co <;> rfl

/-- C1: end-to-end scenario.  Synchronizing the two specification rows
stores exactly one row (the second is rejected for its empty email), and
the canonical record built from the stored row at dashboard load time has
status Answered, sales amount 1000 and initial-call flag 1, for every
load-time clock reading. -/
theorem C1_end_to_end_scenario :
    c1_stored.length = 1 ∧
    (∀ today : Date,
      (loadRecord today (c1_stored.getD 0 [])).status = some "Answered" ∧
      (loadRecord today (c1_stored.getD 0 [])).sales_amount = 1000 ∧
      (loadRecord today (c1_stored.getD 0 [])).is_initial_call = 1) := by
  refine ⟨by decide, fun today => ⟨rfl, ?_, rfl⟩⟩
  have h : (loadRecord today (c1_stored.getD 0 [])).sales_amount
      = (loadRecord ⟨2024, 1, 1⟩ (c1_stored.getD 0 [])).sales_amount := rfl
  rw [h]
  decide

/-- Counterexample for C3: a stored row whose next follow-up date
(2024-01-10) lies between the filter end date (2024-01-05) and the
load-time clock (2024-01-20).  The per-record counter stored at load time
is 1, the per-agent aggregate shown under the filter sums those stored
counters and reports 1, but the count of configured follow-up fields that
are non-null and at most the filter end date is 0 — so the per-agent and
per-record follow-up counts shown under a filter are not recomputed with
the filter end date as the claim states. -/
theorem C3_reference_date_counterexample :
    (loadRecord ⟨2024, 1, 20⟩ c3_dbrow).total_follow_up_calls = 1 ∧
    agentFollowUpSum [loadRecord ⟨2024, 1, 20⟩ c3_dbrow] = 1 ∧
    total_follow_up_calls_overall ⟨2024, 1, 5⟩ [loadRecord ⟨2024, 1, 20⟩ c3_dbrow] = 0 ∧
    recFollowUpCount ⟨2024, 1, 5⟩ (loadRecord ⟨2024, 1, 20⟩ c3_dbrow) = 0 ∧
    (loadRecord ⟨2024, 1, 20⟩ c3_dbrow).next_follow_up_date = some ⟨2024, 1, 10⟩ := by
  decide

/-- C3 as amended: the per-record counter equals the number of configured
follow-up-date fields that are non-null and at most the load-time clock
(reference date today at load time); the overall dashboard metric
recomputes the same count against the filter end date; but the per-agent
aggregate merely sums the stored load-time counters, so only the overall
metric uses the filter end date as reference. -/
theorem C3_follow_up_reference_dates :
    (∀ (today : Date) (row : DbRow),
        (loadRecord today row).total_follow_up_calls
          = recFollowUpCount today (loadRecord today row)) ∧
    (∀ (endDate : Date) (rows : List CanonRecord),
        total_follow_up_calls_overall endDate rows
          = (rows.map (recFollowUpCount endDate)).sum) ∧
    (∀ rows : List CanonRecord,
        agentFollowUpSum rows = (rows.map (fun r => r.total_follow_up_calls)).sum) := by
  refine ⟨fun today row => rfl, fun endDate rows => ?_, fun rows => rfl⟩
  have hrec : recFollowUpCount endDate
      = fun r => if followUpDue endDate r.next_follow_up_date then 1 else 0 := by
    funext r
    simp [recFollowUpCount, recordFollowUpCols, List.countP_singleton]
  rw [hrec, ← countP_eq_sum_ite]
  simp [total_follow_up_calls_overall, recordFollowUpCols]

/-- Counterexample for C4: the source status value invalid number is
mapped to Invalid number, which is neither the title-cased form of its
mapped value nor the value Not answered — so the claim that title-casing
is applied to every mapped value with Not answered as the sole exception
fails on the code. -/
theorem C4_title_casing_counterexample :
    statusDisplay "invalid number" = some "Invalid number" ∧
    pyTitle "Invalid number" = "Invalid Number" ∧
    ("Invalid number" : String) ≠ pyTitle "Invalid number" ∧
    ("Invalid number" : String) ≠ "Not answered" := by
  decide

/-- C4 as amended: both vocabulary maps are strict allow-lists (a value
whose stripped lower-cased form is not a dictionary key maps to null,
never passed through verbatim); Sold, Deal Won and deal complete all map
to Converted; every mapped status value is title-cased except the two-word
values Not answered and Invalid number, which keep their second word
lower-case; every mapped sales-status value is title-cased with no
exception (so the stored forms are Converted, Not Interested, Follow Up). -/
theorem C4_vocabulary_mapper_amended :
    (salesStatusDisplay "Sold" = some "Converted" ∧
     salesStatusDisplay "Deal Won" = some "Converted" ∧
     salesStatusDisplay "deal complete" = some "Converted") ∧
    (∀ s : String, normKey s ∉ status_mapping.map Prod.fst → statusDisplay s = none) ∧
    (∀ s : String, normKey s ∉ sales_status_mapping.map Prod.fst → salesStatusDisplay s = none) ∧
    (∀ s v : String, statusDisplay s = some v →
      v ∈ ["Answered", "Not answered", "Invalid number", "Voicemail"] ∧
      (v = pyTitle v ∨ v = "Not answered" ∨ v = "Invalid number")) ∧
    (∀ s v : String, salesStatusDisplay s = some v →
      v ∈ ["Converted", "Not Interested", "Follow Up"] ∧ v = pyTitle v) := by
  refine ⟨⟨by decide, by decide, by decide⟩, ?_, ?_, ?_, ?_⟩
  · intro s hs
    unfold statusDisplay lookupVocab
    cases h : status_mapping.find? (fun p => p.1 == normKey s) with
    | none => rfl
    | some pr =>
        exfalso
        apply hs
        have hp := List.find?_some h
        have hm : pr ∈ status_mapping := List.mem_of_find?_eq_some h
        have he : pr.1 = normKey s := by simpa using hp
        exact he ▸ List.mem_map_of_mem Prod.fst hm
  · intro s hs
    unfold salesStatusDisplay lookupVocab
    cases h : sales_status_mapping.find? (fun p => p.1 == normKey s) with
    | none => rfl
    | some pr =>
        exfalso
        apply hs
        have hp := List.find?_some h
        have hm : pr ∈ sales_status_mapping := List.mem_of_find?_eq_some h
        have he : pr.1 = normKey s := by simpa using hp
        exact he ▸ List.mem_map_of_mem Prod.fst hm
  · intro s v hv
    unfold statusDisplay lookupVocab at hv
    cases h : status_mapping.find? (fun p => p.1 == normKey s) with
    | none => rw [h] at hv; exact absurd hv (by simp)
    | some p =>
        rw [h] at hv
        simp only [Option.map_some', Option.some.injEq] at hv
        have hm : p ∈ status_mapping := List.mem_of_find?_eq_some h
        fin_cases hm <;> subst hv <;> decide
  · intro s v hv
    unfold salesStatusDisplay lookupVocab at hv
    cases h : sales_status_mapping.find? (fun p => p.1 == normKey s) with
    | none => rw [h] at hv; exact absurd hv (by simp)
    | some p =>
        rw [h] at hv
        simp only [Option.map_some', Option.some.injEq] at hv
        have hm : p ∈ sales_status_mapping := List.mem_of_find?_eq_some h
        fin_cases hm <;> subst hv <;> decide

/-- Witness for C4: a non-dictionary value maps to null under both maps,
the mapped form of answered call satisfies the status title-casing rule,
and the mapped form of Sold satisfies the sales-status title-casing rule. -/
theorem C4_vocabulary_mapper_amended_witness :
    statusDisplay "no such status" = none ∧
    salesStatusDisplay "no such status" = none ∧
    (("Answered" : String) ∈ ["Answered", "Not answered", "Invalid number", "Voicemail"] ∧
      (("Answered" : String) = pyTitle "Answered" ∨ ("Answered" : String) = "Not answered" ∨
        ("Answered" : String) = "Invalid number")) ∧
    (("Converted" : String) ∈ ["Converted", "Not Interested", "Follow Up"] ∧
      ("Converted" : String) = pyTitle "Converted") :=
  ⟨C4_vocabulary_mapper_amended.2.1 "no such status" (by decide),
   C4_vocabulary_mapper_amended.2.2.1 "no such status" (by decide),
   C4_vocabulary_mapper_amended.2.2.2.1 "answered call" "Answered" (by decide),
   C4_vocabulary_mapper_amended.2.2.2.2 "Sold" "Converted" (by decide)⟩

/-- Counterexample for C5: a fully synchronized row whose remarks cell was
the empty string reads back with NULL in that field, while the built
canonical record holds the empty string there — so the read-back rows do
not match the built canonical records field-for-field. -/
theorem C5_field_for_field_counterexample :
    selectAll (insert_data_to_postgres (fetch_data_from_gsheets [c5_row])
        FailPoint.noFail ⟨none⟩).state = [toDbRow (fetchRowClean c5_row)] ∧
    (toDbRow (fetchRowClean c5_row)).getD 4 none = none ∧
    (rowCells (fetchRowClean c5_row)).getD 4 Value.na = Value.s "" ∧
    toDbRow (fetchRowClean c5_row) ≠ (rowCells (fetchRowClean c5_row)).map canonCellAsStored := by
  decide

/-- C5 as amended: for every source input, the synchronizer accepts
exactly the rows whose email is neither null nor empty (rejecting the
rest, so accepted plus rejected equals the input count, email presence
being the sole admission filter), and reading the table back after a
successful synchronization returns exactly the accepted records as
normalized for storage, where NaN fields and empty or whitespace-only
string fields are stored as NULL. -/
theorem C5_round_trip_amended :
    ∀ (rows : List SourceRow) (s : PGState),
      (fetch_data_from_gsheets rows).length + rejectedCount rows = rows.length ∧
      rejectedCount rows = rows.countP (fun r => !(acceptEmail r)) ∧
      selectAll (insert_data_to_postgres (fetch_data_from_gsheets rows)
          FailPoint.noFail s).state
        = (fetch_data_from_gsheets rows).map toDbRow := by
  intro rows s
  refine ⟨?_, rfl, rfl⟩
  have h1 : (fetch_data_from_gsheets rows).length
      = rows.countP (fun r => acceptEmail (fetchRowClean r)) := by
    rw [fetch_data_from_gsheets, ← List.countP_eq_length_filter, List.countP_map]
    rfl
  rw [h1]
  exact countP_not_add _ rows

/-- C10: when the fetch step yields zero accepted rows the main program
exits before any store mutation, leaving the table untouched; an
all-rejected source and any fetch error both yield zero rows; by contrast
an actual load of an empty record set would leave the table truncated to
the empty row set, so the two behaviours differ on any non-empty prior
state. -/
theorem C10_empty_fetch_skips_store :
    (∀ (f : FetchOutcome) (fp : FailPoint) (s : PGState),
        fetchResult f = [] → runMain f fp s = s) ∧
    (∀ rows : List SourceRow, (∀ r ∈ rows, acceptEmail r = false) →
        fetchResult (FetchOutcome.ok rows) = []) ∧
    fetchResult FetchOutcome.fetchError = [] ∧
    (∀ s : PGState, (insert_data_to_postgres [] FailPoint.noFail s).state.table = some []) := by
  refine ⟨?_, ?_, rfl, fun s => rfl⟩
  · intro f fp s h
    simp [runMain, h]
  · intro rows h
    simp only [fetchResult, fetch_data_from_gsheets]
    rw [List.filter_eq_nil_iff]
    intro a ha
    obtain ⟨r, hr, rfl⟩ := List.mem_map.mp ha
    have he : acceptEmail (fetchRowClean r) = acceptEmail r := rfl
    simp [he, h r hr]

/-- Witness for C10: a one-row source whose email is blank leaves a
non-empty prior store untouched, and that untouched state differs from
the truncated-empty state an empty load would produce. -/
theorem C10_empty_fetch_skips_store_witness :
    runMain (FetchOutcome.ok [c10_rejected_row]) FailPoint.noFail c10_prior_state
      = c10_prior_state ∧ c10_prior_state.table ≠ some [] :=
  ⟨C10_empty_fetch_skips_store.1 (FetchOutcome.ok [c10_rejected_row]) FailPoint.noFail
      c10_prior_state (by decide),
   by decide⟩
